import Mathlib

/-!
Shallow embedding of the StreamForge core, for checking the
specification's claims against the implementation:
* `src/feed.js` — `FeedManager` (feed buffer, stats, pin, clear) and
  `ContentModerator` (rule stage, AI stage, moderation cache);
* `src/platforms/index.js` — `PlatformManager` (adapter registry,
  start/stop fan-out with per-adapter failure isolation).

Modelling conventions: JavaScript strings are Lean strings (the claims
involve only ASCII text, where the JS UTF-16 `length` coincides with the
code-point count); a JS `Map` is an association list with insert-or-
overwrite `set` semantics; asynchronous methods are explicit state
passing; the external classifier (Ollama) is an oracle argument giving
the observable behaviour of one call.  Event emission to dashboards and
the vMix sink is not on any claim's critical path and is omitted, except
for the platform-error events that claim C7 counts.
-/

namespace StreamForge

/-- Normalized comment (§3 of the spec).  The moderation and feed paths
read only `id`, `platform`, `author` and `message`; the remaining fields
(`authorId`, `avatar`, `timestamp`, `raw`) are carried passthrough data
that no claim touches. -/
structure Comment where
  id : String
  platform : String
  author : String
  message : String
deriving DecidableEq

/-- JS regex word character `\w`, i.e. `[A-Za-z0-9_]`. -/
def isWordChar (c : Char) : Bool :=
  ('a' ≤ c && c ≤ 'z') || ('A' ≤ c && c ≤ 'Z') || ('0' ≤ c && c ≤ '9') || c == '_'

/-- JS whitespace class `\s` (also what `String.prototype.trim` strips):
the common members, which cover every string the claims touch. -/
def isSpaceJS (c : Char) : Bool :=
  c == ' ' || c == '\t' || c == '\n' || c == '\r' ||
  c == Char.ofNat 11 || c == Char.ofNat 12 || c == Char.ofNat 160 || c == Char.ofNat 65279

/-- JS `String.prototype.trim`: strip whitespace from both ends. -/
def trimJS (s : String) : String :=
  ⟨((s.data.dropWhile isSpaceJS).reverse.dropWhile isSpaceJS).reverse⟩

/-- Case-insensitive match of the pattern characters at position `i` of
`cs` (false when the pattern does not fit). -/
def matchesAtCI (pat : List Char) (cs : List Char) (i : Nat) : Bool :=
  ((cs.drop i).take pat.length).map Char.toLower == pat.map Char.toLower

/-- Word boundary `\b` before position `i`: `i` is the start of the
string or the previous character is a non-word character.  (All blocklist
keywords begin with a word character, so this is exactly the JS
condition.) -/
def boundaryBefore (cs : List Char) (i : Nat) : Bool :=
  i == 0 || !isWordChar (cs.getD (i - 1) ' ')

/-- Word boundary `\b` after position `j` (exclusive end of the match):
`j` is the end of the string or the character at `j` is a non-word
character.  (All blocklist keywords end with a word character.) -/
def boundaryAfter (cs : List Char) (j : Nat) : Bool :=
  decide (cs.length ≤ j) || !isWordChar (cs.getD j ' ')

/-- A case-insensitive occurrence of keyword `kw` somewhere in `s` with
`\b` on both sides — one alternative of the blocklist regex
`/\b(spam|buy now|click here|free money|onlyfans)\b/i`. -/
def wordOccursCI (kw : String) (s : String) : Bool :=
  let cs := s.data
  let p := kw.data
  (List.range (cs.length + 1)).any fun i =>
    matchesAtCI p cs i && boundaryBefore cs i && boundaryAfter cs (i + p.length)

/-- Case-insensitive `http://` or `https://` at position `i`, returning
the length of the matched prefix (the regex piece `https?:\/\/`). -/
def httpAt (cs : List Char) (i : Nat) : Option Nat :=
  if matchesAtCI "https://".data cs i then some 8
  else if matchesAtCI "http://".data cs i then some 7
  else none

/-- The link-flooding regex `/https?:\/\/[^\s]+ https?:\/\//i`: some
`http(s)://`, then one or more non-whitespace characters, a space, then
another `http(s)://`. -/
def multipleLinksMatch (s : String) : Bool :=
  let cs := s.data
  let n := cs.length
  (List.range n).any fun i =>
    match httpAt cs i with
    | none => false
    | some l =>
      (List.range n).any fun j =>
        decide (i + l < j) && decide (j < n) &&
        ((List.range (j - (i + l))).all fun k => !isSpaceJS (cs.getD (i + l + k) ' ')) &&
        (cs.getD j '!' == ' ') && (httpAt cs (j + 1)).isSome

/-- The regex `^(.)\1{10,}$`: the whole string is one character — not a
newline, which `.` does not match — repeated at least 11 times. -/
def repeatedCharMatch (s : String) : Bool :=
  match s.data with
  | [] => false
  | c :: rest => !(c == '\n') && decide (10 ≤ rest.length) && rest.all (fun d => d == c)

/-- The regex `^\W+$`: nonempty and every character a non-word
character. -/
def symbolsOnlyMatch (s : String) : Bool :=
  !s.data.isEmpty && s.data.all (fun c => !isWordChar c)

/-- The regex `/first\s*!+$/i`: an occurrence of "first"
(case-insensitive) followed by optional whitespace and one or more
exclamation marks running to the end of the string. -/
def firstSpamMatch (s : String) : Bool :=
  let cs := s.data
  let n := cs.length
  (List.range (n + 1)).any fun i =>
    matchesAtCI "first".data cs i &&
    (List.range (n + 1)).any fun j =>
      decide (i + 5 ≤ j) && decide (j < n) &&
      ((List.range (j - (i + 5))).all fun k => isSpaceJS (cs.getD (i + 5 + k) ' ')) &&
      ((List.range (n - j)).all fun k => cs.getD (j + k) ' ' == '!')

/-- `BLOCKED_PATTERNS` of `src/feed.js`: the keyword blocklist (with word
boundaries) and the multiple-link heuristic. -/
def blockedPatternsMatch (s : String) : Bool :=
  wordOccursCI "spam" s || wordOccursCI "buy now" s || wordOccursCI "click here" s ||
  wordOccursCI "free money" s || wordOccursCI "onlyfans" s || multipleLinksMatch s

/-- `SPAM_PATTERNS` of `src/feed.js`: long character repetition,
symbol-only content, "first!"-style spam. -/
def spamPatternsMatch (s : String) : Bool :=
  repeatedCharMatch s || symbolsOnlyMatch s || firstSpamMatch s

/-- JS `msg.includes(c)` for a single character (`String.contains`),
evaluated over the character list. -/
def containsChar (s : String) (c : Char) : Bool := s.data.any (fun d => d == c)

/-- A well-formed moderation result record (§3 of the spec). -/
structure ModerationResult where
  allow : Bool
  highlight : Bool
  reason : String
deriving DecidableEq

/-- `ContentModerator.ruleCheck`: the synchronous deterministic rule
stage, translated clause by clause from `src/feed.js`. -/
def ruleCheck (c : Comment) : ModerationResult :=
  let msg := c.message
  if blockedPatternsMatch msg then ⟨false, false, "blocked pattern"⟩
  else if spamPatternsMatch msg then ⟨false, false, "spam pattern"⟩
  else if (trimJS msg).length < 2 then ⟨false, false, "too short"⟩
  else ⟨true, containsChar msg '?' && decide (msg.length > 15), "passed rules"⟩

/-- Primitive JSON values. -/
inductive JsPrim where
  | jnull
  | jbool (b : Bool)
  | jnum (n : Int)
  | jstr (s : String)
deriving DecidableEq

/-- A JavaScript object as a field list.  `aiCheck` applies `JSON.parse`
to the first match of `/\{[^}]+\}/`; that match begins with a brace and
its interior contains no closing brace, so a successful parse is always
a flat object whose values we model as primitives.  `JSON.parse`
collapses duplicate keys, so lookup by first occurrence is exact for
every object the code can produce. -/
abbrev JsObj := List (String × JsPrim)

/-- Field lookup on a JS object (`undefined` is `none`). -/
def jsGet : JsObj → String → Option JsPrim
  | [], _ => none
  | (k, v) :: rest, key => if k = key then some v else jsGet rest key

/-- The JSON-object form of a well-formed moderation result — the shape
`ruleCheck` and the parse-failed default produce. -/
def ModerationResult.toJs (r : ModerationResult) : JsObj :=
  [("allow", .jbool r.allow), ("highlight", .jbool r.highlight), ("reason", .jstr r.reason)]

/-- Well-formedness per the spec's ModerationResult contract: a boolean
`allow`, a boolean `highlight` and a string `reason`. -/
def wellFormedJs (o : JsObj) : Bool :=
  (match jsGet o "allow" with | some (.jbool _) => true | _ => false) &&
  (match jsGet o "highlight" with | some (.jbool _) => true | _ => false) &&
  (match jsGet o "reason" with | some (.jstr _) => true | _ => false)

/-- JS truthiness of a primitive value. -/
def JsPrim.truthy : JsPrim → Bool
  | .jnull => false
  | .jbool b => b
  | .jnum n => !(n == 0)
  | .jstr s => !(s == "")

/-- Truthiness of the property access `o.k` (a missing field is
`undefined`, hence falsy). -/
def jsFieldTruthy (o : JsObj) (k : String) : Bool :=
  match jsGet o k with
  | some p => p.truthy
  | none => false

/-- The moderation cache: a JS `Map` from string keys to cached results,
as an association list. -/
abbrev Cache := List (String × JsObj)

/-- `Map.prototype.get`. -/
def cacheGet : Cache → String → Option JsObj
  | [], _ => none
  | (k, v) :: rest, key => if k = key then some v else cacheGet rest key

/-- `Map.prototype.set`: overwrite an existing key in place, else append. -/
def cacheSet : Cache → String → JsObj → Cache
  | [], key, v => [(key, v)]
  | (k, w) :: rest, key, v =>
      if k = key then (k, v) :: rest else (k, w) :: cacheSet rest key v

/-- `ContentModerator` state: the cache plus the mode flags.  `useAI`
comes from the `useAI` option, `aiAvailable` from the one-time Ollama
probe in `init()`; `strictMode` only selects the system prompt and does
not change any control flow we model. -/
structure ModState where
  cache : Cache
  useAI : Bool
  aiAvailable : Bool
  strictMode : Bool
deriving DecidableEq

/-- Observable behaviour of one external-classifier round trip, covering
everything `aiCheck` can see: `throws` — `ollama.chat` rejects, the
response shape is unexpected, or `JSON.parse` throws; `returnsParsed v`
— the response text contained a JSON-shaped substring that parsed to the
object `v`; `returnsUnparsable` — the response text contained no
JSON-shaped substring. -/
inductive ClassifierBehavior where
  | throws
  | returnsParsed (v : JsObj)
  | returnsUnparsable
deriving DecidableEq

/-- `ContentModerator.aiCheck` under a given classifier behaviour: an
exception propagates to the caller; a matched substring is parsed and
returned as-is; with no match the fail-open default is returned. -/
def aiCheck : ClassifierBehavior → Except Unit JsObj
  | .throws => .error ()
  | .returnsParsed v => .ok v
  | .returnsUnparsable => .ok (ModerationResult.toJs ⟨true, false, "ai parse failed"⟩)

/-- Instrumentation: which moderation stages one `moderate` call
executed (`ruleRan` — `ruleCheck` was evaluated; `aiInvoked` — the
external classifier was called). -/
structure Invocations where
  ruleRan : Bool
  aiInvoked : Bool
deriving DecidableEq

/-- Result of one `moderate` call: the value returned, the successor
moderator state, and the stage instrumentation. -/
structure ModOut where
  result : JsObj
  state : ModState
  inv : Invocations
deriving DecidableEq

/-- The cache key of `src/feed.js`: the single string
`author + ":" + message`. -/
def cacheKey (c : Comment) : String := c.author ++ ":" ++ c.message

/-- `ContentModerator.moderate`: cache lookup; rule stage; on a rule
block cache and return immediately; otherwise the AI stage when enabled
and available, with any classifier exception caught and the rule result
used instead; every path caches what it returns. -/
def moderate (st : ModState) (c : Comment) (be : ClassifierBehavior) : ModOut :=
  let key := cacheKey c
  match cacheGet st.cache key with
  | some r => ⟨r, st, ⟨false, false⟩⟩
  | none =>
    let rr := ruleCheck c
    if !rr.allow then
      ⟨rr.toJs, { st with cache := cacheSet st.cache key rr.toJs }, ⟨true, false⟩⟩
    else if st.useAI && st.aiAvailable then
      match aiCheck be with
      | .ok v => ⟨v, { st with cache := cacheSet st.cache key v }, ⟨true, true⟩⟩
      | .error _ =>
          ⟨rr.toJs, { st with cache := cacheSet st.cache key rr.toJs }, ⟨true, true⟩⟩
    else
      ⟨rr.toJs, { st with cache := cacheSet st.cache key rr.toJs }, ⟨true, false⟩⟩

/-- `ContentModerator.clearCache`. -/
def clearCache (st : ModState) : ModState := { st with cache := [] }

/-- Feed statistics, as initialised and mutated by `FeedManager`. -/
structure Stats where
  total : Nat
  approved : Nat
  blocked : Nat
  byPlatform : List (String × Nat)
deriving DecidableEq

/-- `this.stats.byPlatform[p] = (this.stats.byPlatform[p] || 0) + 1`. -/
def bumpPlatform : List (String × Nat) → String → List (String × Nat)
  | [], p => [(p, 1)]
  | (k, n) :: rest, p =>
      if k = p then (k, n + 1) :: rest else (k, n) :: bumpPlatform rest p

/-- An enriched comment: the spread copy of the comment plus the
display flags.  `addComment` leaves `pinned` unset (`undefined`, falsy),
modelled as `false`; the `approvedAt` wall-clock timestamp is not
modelled, no claim reads it. -/
structure Enriched where
  comment : Comment
  highlighted : Bool
  pinned : Bool
deriving DecidableEq

/-- `FeedManager` state: the buffer (newest first), the statistics, and
the owned `ContentModerator`. -/
structure FeedState where
  feed : List Enriched
  stats : Stats
  mod : ModState
deriving DecidableEq

/-- Constructor-time statistics. -/
def initStats : Stats := ⟨0, 0, 0, []⟩

/-- Constructor-time feed state over a given moderator state. -/
def initFeed (mod0 : ModState) : FeedState := ⟨[], initStats, mod0⟩

/-- `FeedManager.addComment`: bump `total` and the per-platform counter;
moderate; on block bump `blocked` and return with the buffer untouched;
on allow bump `approved`, unshift the enriched comment, and trim the
buffer to `maxFeedSize` when it exceeds it.  `result.allow` and
`result.highlight` are read by JS truthiness since the moderation result
may be an arbitrary parsed object. -/
def addComment (maxFeedSize : Nat) (st : FeedState) (c : Comment)
    (be : ClassifierBehavior) : FeedState :=
  let stats1 : Stats :=
    { st.stats with
      total := st.stats.total + 1
      byPlatform := bumpPlatform st.stats.byPlatform c.platform }
  let m := moderate st.mod c be
  if !jsFieldTruthy m.result "allow" then
    { st with stats := { stats1 with blocked := stats1.blocked + 1 }, mod := m.state }
  else
    let enriched : Enriched := ⟨c, jsFieldTruthy m.result "highlight", false⟩
    let feed1 := enriched :: st.feed
    let feed2 := if feed1.length > maxFeedSize then feed1.take maxFeedSize else feed1
    { feed := feed2
      stats := { stats1 with approved := stats1.approved + 1 }
      mod := m.state }

/-- A sequence of `addComment` calls, each with its own classifier
behaviour. -/
def runFeed (maxFeedSize : Nat) (st : FeedState) :
    List (Comment × ClassifierBehavior) → FeedState
  | [] => st
  | (c, be) :: rest => runFeed maxFeedSize (addComment maxFeedSize st c be) rest

/-- `FeedManager.getFeed`: `slice(0, limit)`. -/
def getFeed (st : FeedState) (limit : Nat) : List Enriched := st.feed.take limit

/-- `FeedManager.clear`: empty the buffer and reset the statistics; the
moderator (with its cache) is not touched. -/
def clear (st : FeedState) : FeedState :=
  { st with feed := [], stats := ⟨0, 0, 0, []⟩ }

/-- `FeedManager.pin`: `findIndex` by id; when found, splice the entry
out, set `pinned`, and unshift it to the head. -/
def pin (st : FeedState) (commentId : String) : FeedState :=
  match st.feed.findIdx? (fun e => e.comment.id == commentId) with
  | none => st
  | some idx =>
    match st.feed.get? idx with
    | none => st
    | some e => { st with feed := { e with pinned := true } :: st.feed.eraseIdx idx }

/-- Start/stop outcome of one adapter call: it either resolves or
throws. -/
inductive StartBehavior where
  | ok
  | throws
deriving DecidableEq

/-- Whether a start/stop call resolves. -/
def StartBehavior.isOk : StartBehavior → Bool
  | .ok => true
  | .throws => false

/-- An adapter instance: the behaviours of its `start()` and `stop()`,
plus the instrumentation flag `started` recording that `start()` has
completed successfully. -/
structure Adapter where
  startBehavior : StartBehavior
  stopBehavior : StartBehavior
  started : Bool
deriving DecidableEq

/-- The platform-error event of `src/platforms/index.js` (the spec's
tagged `adapterError`), tagged with the registered adapter name. -/
inductive PMEvent where
  | platformError (name : String)
deriving DecidableEq

/-- `PlatformManager` state: the `_platforms` map in insertion order. -/
structure PMState where
  platforms : List (String × Adapter)
deriving DecidableEq

/-- `Map.prototype.get` on the registry. -/
def pmGet : List (String × Adapter) → String → Option Adapter
  | [], _ => none
  | (k, a) :: rest, name => if k = name then some a else pmGet rest name

/-- Mark the named adapter as started. -/
def pmSetStarted : List (String × Adapter) → String → List (String × Adapter)
  | [], _ => []
  | (k, a) :: rest, name =>
      if k = name then (k, { a with started := true }) :: rest
      else (k, a) :: pmSetStarted rest name

/-- `PlatformManager.list()`. -/
def pmList (st : PMState) : List String := st.platforms.map (fun e => e.1)

/-- `PlatformManager.startPlatform`: a missing name throws (the returned
promise rejects); an adapter whose `start()` throws has the error caught
and emitted as one platformError event; otherwise the adapter starts. -/
def startPlatform (st : PMState) (name : String) :
    Except String (PMState × List PMEvent) :=
  match pmGet st.platforms name with
  | none => .error name
  | some a =>
    match a.startBehavior with
    | .throws => .ok (st, [.platformError name])
    | .ok => .ok (⟨pmSetStarted st.platforms name⟩, [])

/-- `PlatformManager.startAll`: `Promise.allSettled` over
`startPlatform` for every registered name — modelled sequentially, each
call settling independently — followed by the loop that reports any
rejected call as a platformError event. -/
def startAll (st : PMState) : PMState × List PMEvent :=
  (pmList st).foldl
    (fun acc name =>
      match startPlatform acc.1 name with
      | .ok (st2, evs) => (st2, acc.2 ++ evs)
      | .error n => (acc.1, acc.2 ++ [.platformError n]))
    (st, [])

/-- `PlatformManager.stopPlatform`: absent name is a no-op; a throwing
`stop()` is caught and reported. -/
def stopPlatform (st : PMState) (name : String) : PMState × List PMEvent :=
  match pmGet st.platforms name with
  | none => (st, [])
  | some a =>
    match a.stopBehavior with
    | .throws => (st, [.platformError name])
    | .ok => (st, [])

/-- `PlatformManager.removePlatform`: stop, detach listeners (no
observable effect in the model), delete from the registry. -/
def removePlatform (st : PMState) (name : String) : PMState × List PMEvent :=
  let stopped := stopPlatform st name
  (⟨stopped.1.platforms.filter (fun e => !(e.1 == name))⟩, stopped.2)

/-- The own keys of the `PLATFORMS` registry object literal. -/
def knownPlatforms : List String := ["youtube", "twitch", "tiktok"]

/-- Property names the read `PLATFORMS[name]` finds inherited from
`Object.prototype` although they are not own keys of the literal:
`constructor`, whose value is the `Object` function (truthy and
constructible), is kept apart from the remaining inherited members
(builtin methods and the `__proto__` accessor value), which are truthy
but throw a TypeError under `new`. -/
def objectProtoCtorNames : List String := ["constructor"]

def objectProtoOtherNames : List String :=
  ["hasOwnProperty", "isPrototypeOf", "propertyIsEnumerable", "toLocaleString",
    "toString", "valueOf", "__defineGetter__", "__defineSetter__",
    "__lookupGetter__", "__lookupSetter__", "__proto__"]

/-- What the property read `PLATFORMS[name]` evaluates to: an own key
gives a real adapter class; an inherited name gives a truthy non-adapter
value; anything else is `undefined` (falsy). -/
inductive PlatformsLookup where
  | adapterClass
  | objectCtor
  | inheritedNonCtor
  | undefinedValue
deriving DecidableEq

def platformsLookup (name : String) : PlatformsLookup :=
  if knownPlatforms.contains name then .adapterClass
  else if objectProtoCtorNames.contains name then .objectCtor
  else if objectProtoOtherNames.contains name then .inheritedNonCtor
  else .undefinedValue

/-- The register config, abstracted to what the model observes of it:
whether it exposes a callable `on` (so that `new Object(config)` — which
returns `config` itself — survives the event wiring), and the behaviours
of the `start`/`stop` methods of whatever instance ends up registered
(for a real adapter class the adapter's; in the `constructor` case the
config object's own, a missing method being a throwing call). -/
structure JsConfig where
  hasOn : Bool
  startBehavior : StartBehavior
  stopBehavior : StartBehavior
deriving DecidableEq

/-- Errors the register path can throw: the unknown-platform `Error`
(the spec's ConfigurationError), or the TypeError raised at
`new Cls(config)` / `instance.on(...)` when the looked-up value is not
an adapter class. -/
inductive RegisterError where
  | configurationError (name : String)
  | typeError
deriving DecidableEq

/-- `PlatformManager.addPlatform` (the spec's `register`), in source
order: read `PLATFORMS[name]` — an object-literal lookup, which also
finds properties inherited from `Object.prototype`; throw the
unknown-platform error only when that read is undefined; then stop and
remove any prior instance under the name, construct the instance, wire
its events, register it, and optionally start it.  An inherited
non-constructor value throws a TypeError at `new Cls(config)`; the
inherited `constructor` value is `Object`, and `new Object(config)`
returns `config` itself, which throws a TypeError at `instance.on`
unless the config exposes one — in which case registration succeeds and
the config object itself is registered.  Returns the resulting state,
the events emitted, and the error thrown, if any. -/
def addPlatform (st : PMState) (name : String) (cfg : JsConfig)
    (autoStart : Bool) : PMState × List PMEvent × Option RegisterError :=
  match platformsLookup name with
  | .undefinedValue => (st, [], some (.configurationError name))
  | .inheritedNonCtor =>
    let removed :=
      if (pmGet st.platforms name).isSome then removePlatform st name else (st, [])
    (removed.1, removed.2, some .typeError)
  | .objectCtor =>
    let removed :=
      if (pmGet st.platforms name).isSome then removePlatform st name else (st, [])
    if cfg.hasOn then
      let st2 : PMState :=
        ⟨removed.1.platforms ++ [(name, ⟨cfg.startBehavior, cfg.stopBehavior, false⟩)]⟩
      if autoStart then
        match startPlatform st2 name with
        | .ok (st3, evs2) => (st3, removed.2 ++ evs2, none)
        | .error _ => (st2, removed.2, none)
      else
        (st2, removed.2, none)
    else
      (removed.1, removed.2, some .typeError)
  | .adapterClass =>
    let removed :=
      if (pmGet st.platforms name).isSome then removePlatform st name else (st, [])
    let st2 : PMState :=
      ⟨removed.1.platforms ++ [(name, ⟨cfg.startBehavior, cfg.stopBehavior, false⟩)]⟩
    if autoStart then
      match startPlatform st2 name with
      | .ok (st3, evs2) => (st3, removed.2 ++ evs2, none)
      | .error _ => (st2, removed.2, none)
    else
      (st2, removed.2, none)

/-! ### Cache lemmas -/

theorem cacheGet_cacheSet_same (m : Cache) (k : String) (v : JsObj) :
    cacheGet (cacheSet m k v) k = some v := by
  induction m with
  | nil => simp [cacheGet, cacheSet]
  | cons hd tl ih =>
    obtain ⟨k2, w⟩ := hd
    by_cases h : k2 = k
    · simp [cacheSet, cacheGet, h]
    · simp [cacheSet, cacheGet, h, ih]

theorem cacheGet_cacheSet_ne (m : Cache) (k k2 : String) (v : JsObj) (h : k ≠ k2) :
    cacheGet (cacheSet m k v) k2 = cacheGet m k2 := by
  induction m with
  | nil => simp [cacheGet, cacheSet, h]
  | cons hd tl ih =>
    obtain ⟨k3, w⟩ := hd
    by_cases h3 : k3 = k
    · subst h3
      simp [cacheSet, cacheGet, h]
    · simp [cacheSet, cacheGet, h3, ih]

/-- Every `moderate` call leaves in the cache, at its own key, exactly
the value it returned. -/
theorem moderate_caches (st : ModState) (c : Comment) (be : ClassifierBehavior) :
    cacheGet (moderate st c be).state.cache (cacheKey c) = some (moderate st c be).result := by
  unfold moderate
  cases h : cacheGet st.cache (cacheKey c) with
  | some r => simp [h]
  | none =>
    simp only [h]
    split
    · simp [cacheGet_cacheSet_same]
    · split
      · cases hb : aiCheck be <;> simp [hb, cacheGet_cacheSet_same]
      · simp [cacheGet_cacheSet_same]

/-! ### C1: the feed buffer is capacity-bounded -/

theorem addComment_feed_length_le (maxFeedSize : Nat) (st : FeedState) (c : Comment)
    (be : ClassifierBehavior) (h : st.feed.length ≤ maxFeedSize) :
    (addComment maxFeedSize st c be).feed.length ≤ maxFeedSize := by
  unfold addComment
  dsimp only
  split
  · exact h
  · dsimp only
    split
    · simp [List.length_take]
    · rename_i hle
      simp only [List.length_cons, gt_iff_lt, not_lt] at hle
      simpa using hle

theorem runFeed_feed_length_le (maxFeedSize : Nat) (st : FeedState)
    (inputs : List (Comment × ClassifierBehavior)) (h : st.feed.length ≤ maxFeedSize) :
    (runFeed maxFeedSize st inputs).feed.length ≤ maxFeedSize := by
  induction inputs generalizing st with
  | nil => exact h
  | cons p rest ih => exact ih _ (addComment_feed_length_le _ _ _ _ h)

/-- C1: for every configured maxFeedSize, every initial moderator state
(hence arbitrary cached moderation outcomes), and every sequence of
addComment calls with arbitrary classifier behaviours, the feed buffer
length is at most maxFeedSize after every call — every prefix of a
sequence is itself a sequence, so the bound at the end of an arbitrary
sequence gives the bound after each call. -/
theorem feed_length_le_maxFeedSize (maxFeedSize : Nat) (mod0 : ModState)
    (inputs : List (Comment × ClassifierBehavior)) :
    (runFeed maxFeedSize (initFeed mod0) inputs).feed.length ≤ maxFeedSize :=
  runFeed_feed_length_le maxFeedSize (initFeed mod0) inputs (Nat.zero_le _)

/-! ### C2: the statistics balance -/

theorem addComment_stats_balance (maxFeedSize : Nat) (st : FeedState) (c : Comment)
    (be : ClassifierBehavior) (h : st.stats.total = st.stats.approved + st.stats.blocked) :
    (addComment maxFeedSize st c be).stats.total =
      (addComment maxFeedSize st c be).stats.approved +
        (addComment maxFeedSize st c be).stats.blocked := by
  unfold addComment
  dsimp only
  split <;> simp <;> omega

theorem runFeed_stats_balance (maxFeedSize : Nat) (st : FeedState)
    (inputs : List (Comment × ClassifierBehavior))
    (h : st.stats.total = st.stats.approved + st.stats.blocked) :
    (runFeed maxFeedSize st inputs).stats.total =
      (runFeed maxFeedSize st inputs).stats.approved +
        (runFeed maxFeedSize st inputs).stats.blocked := by
  induction inputs generalizing st with
  | nil => exact h
  | cons p rest ih => exact ih _ (addComment_stats_balance _ _ _ _ h)

/-- C2: after any sequence of completed addComment calls — with
arbitrary classifier behaviours, so including every caught classifier
failure — the statistics satisfy total = approved + blocked: each
ingested comment is counted as exactly one of approved or blocked. -/
theorem stats_total_eq_approved_add_blocked (maxFeedSize : Nat) (mod0 : ModState)
    (inputs : List (Comment × ClassifierBehavior)) :
    (runFeed maxFeedSize (initFeed mod0) inputs).stats.total =
      (runFeed maxFeedSize (initFeed mod0) inputs).stats.approved +
        (runFeed maxFeedSize (initFeed mod0) inputs).stats.blocked :=
  runFeed_stats_balance maxFeedSize (initFeed mod0) inputs rfl

/-! ### C3: moderate never raises; failure and success paths of the AI stage -/

theorem toJs_wellFormed (r : ModerationResult) : wellFormedJs r.toJs = true := rfl

/-- A `moderate` call whose key is cached is a pure cache hit. -/
theorem moderate_hit (st : ModState) (c : Comment) (be : ClassifierBehavior) (r : JsObj)
    (h : cacheGet st.cache (cacheKey c) = some r) :
    moderate st c be = ⟨r, st, ⟨false, false⟩⟩ := by
  unfold moderate
  simp [h]

/-- A moderator with the external classifier enabled and available and
an empty cache. -/
def aiOnMod : ModState := ⟨[], true, true, false⟩

/-- A moderator with the external classifier disabled and an empty
cache. -/
def modOff : ModState := ⟨[], false, false, false⟩

def c3Comment : Comment := ⟨"m1", "twitch", "Alice", "okay"⟩

/-- A classifier response text such as `{"allow":1}`: it matches
`/\{[^}]+\}/` and `JSON.parse` of the match yields this object, in which
`allow` is a number and `highlight` and `reason` are absent. -/
def c3Bad : JsObj := [("allow", .jnum 1)]

/-- C3 counterexample: with the classifier enabled and available, a
response whose first JSON-shaped substring parses to a non-conforming
object (here from the text `{"allow":1}`) is returned by `moderate`
as-is and is not a well-formed ModerationResult — so under "returning
arbitrary text" the claim's "every exit path returns a well-formed
ModerationResult" is false. -/
theorem moderate_can_return_ill_formed :
    wellFormedJs (moderate aiOnMod c3Comment (.returnsParsed c3Bad)).result = false ∧
    (moderate aiOnMod c3Comment (.returnsParsed c3Bad)).result = c3Bad := by decide

/-- C3 amended: `moderate` is a total function of the classifier's
behaviour (it never raises — every exception a classifier call can
produce is the `throws` behaviour, which is caught).  For an uncached
comment, whatever the mode flags: a throwing classifier call yields the
rule-stage result, which is well-formed; a response with no JSON-shaped
substring yields a well-formed result on every path; with the classifier
disabled (useAI false) or unavailable (aiAvailable false) every
behaviour — a parsed object included — yields the well-formed rule-stage
result; but with the classifier enabled and available, a response that
parses to an object v is, whenever the rule stage allows, returned
as-is — well-formed only when v conforms. -/
theorem moderate_failure_paths (st : ModState) (c : Comment) (v : JsObj)
    (hmiss : cacheGet st.cache (cacheKey c) = none) :
    (moderate st c .throws).result = (ruleCheck c).toJs ∧
    wellFormedJs (moderate st c .throws).result = true ∧
    wellFormedJs (moderate st c .returnsUnparsable).result = true ∧
    (moderate { st with useAI := false } c (.returnsParsed v)).result = (ruleCheck c).toJs ∧
    wellFormedJs (moderate { st with useAI := false } c (.returnsParsed v)).result = true ∧
    (moderate { st with aiAvailable := false } c (.returnsParsed v)).result =
      (ruleCheck c).toJs ∧
    wellFormedJs (moderate { st with aiAvailable := false } c (.returnsParsed v)).result =
      true ∧
    (moderate { st with useAI := true, aiAvailable := true } c (.returnsParsed v)).result =
      (if (ruleCheck c).allow then v else (ruleCheck c).toJs) := by
  by_cases hr : (ruleCheck c).allow <;>
    by_cases hu : st.useAI <;>
      by_cases ha : st.aiAvailable <;>
        simp [moderate, hmiss, hr, hu, ha, aiCheck, toJs_wellFormed]

theorem moderate_failure_paths_witness :
    cacheGet aiOnMod.cache (cacheKey c3Comment) = none ∧
    ((moderate aiOnMod c3Comment .throws).result = (ruleCheck c3Comment).toJs ∧
      wellFormedJs (moderate aiOnMod c3Comment .throws).result = true ∧
      wellFormedJs (moderate aiOnMod c3Comment .returnsUnparsable).result = true ∧
      (moderate { aiOnMod with useAI := false } c3Comment (.returnsParsed c3Bad)).result =
        (ruleCheck c3Comment).toJs ∧
      wellFormedJs
        (moderate { aiOnMod with useAI := false } c3Comment (.returnsParsed c3Bad)).result =
        true ∧
      (moderate { aiOnMod with aiAvailable := false } c3Comment
        (.returnsParsed c3Bad)).result = (ruleCheck c3Comment).toJs ∧
      wellFormedJs
        (moderate { aiOnMod with aiAvailable := false } c3Comment
          (.returnsParsed c3Bad)).result = true ∧
      (moderate { aiOnMod with useAI := true, aiAvailable := true } c3Comment
        (.returnsParsed c3Bad)).result =
        (if (ruleCheck c3Comment).allow then c3Bad else (ruleCheck c3Comment).toJs)) :=
  ⟨rfl, moderate_failure_paths aiOnMod c3Comment c3Bad rfl⟩

/-! ### C4: the rule stage clause by clause, and Scenario C -/

def scenarioC : Comment := ⟨"sc", "youtube", "StreamNerd", "What switcher are you using?"⟩

/-- C4: the rule stage returns "blocked pattern" exactly on a blocklist
match, else "spam pattern" exactly on a structural spam match, else
"too short" exactly when the trimmed message has length < 2, else it
allows with reason "passed rules" and highlight iff the message contains
a question mark and has length > 15; and, with the external classifier
disabled, addComment of Scenario C's comment approves it with
highlighted = true. -/
theorem ruleCheck_spec (c : Comment) :
    (ruleCheck c = ⟨false, false, "blocked pattern"⟩ ↔
      blockedPatternsMatch c.message = true) ∧
    (ruleCheck c = ⟨false, false, "spam pattern"⟩ ↔
      (blockedPatternsMatch c.message = false ∧ spamPatternsMatch c.message = true)) ∧
    (ruleCheck c = ⟨false, false, "too short"⟩ ↔
      (blockedPatternsMatch c.message = false ∧ spamPatternsMatch c.message = false ∧
        (trimJS c.message).length < 2)) ∧
    (ruleCheck c =
        ⟨true, containsChar c.message '?' && decide (c.message.length > 15), "passed rules"⟩ ↔
      (blockedPatternsMatch c.message = false ∧ spamPatternsMatch c.message = false ∧
        ¬ (trimJS c.message).length < 2)) ∧
    (addComment 50 (initFeed modOff) scenarioC .throws).feed = [⟨scenarioC, true, false⟩] ∧
    (addComment 50 (initFeed modOff) scenarioC .throws).stats.approved = 1 := by
  refine ⟨?_, ?_, ?_, ?_, by decide, by decide⟩ <;>
  · unfold ruleCheck
    by_cases hb : blockedPatternsMatch c.message <;>
      by_cases hs : spamPatternsMatch c.message <;>
        by_cases ht : (trimJS c.message).length < 2 <;>
          simp [hb, hs, ht]

/-! ### C5: cache hits and rule blocks never re-invoke the classifier -/

def c5Comment : Comment := ⟨"m2", "youtube", "Bob", "nice stream today"⟩

def c5Blocked : Comment := ⟨"b1", "twitch", "spambot", "spam"⟩

/-- C5: two consecutive moderate calls with identical (author, message):
the second is a pure cache hit — it returns the first call's result
unchanged, leaves the moderator state unchanged, and runs neither the
rule stage nor the external classifier, so the classifier is invoked at
most once across both calls (each single call invokes it at most once by
construction); and a comment the rule stage blocks never invokes the
classifier at all. -/
theorem moderate_cache_and_block_no_reinvoke (st st3 : ModState) (c1 c2 c3 : Comment)
    (be1 be2 be3 : ClassifierBehavior)
    (hA : c1.author = c2.author) (hM : c1.message = c2.message)
    (hblk : (ruleCheck c3).allow = false) :
    (moderate (moderate st c1 be1).state c2 be2).result = (moderate st c1 be1).result ∧
    (moderate (moderate st c1 be1).state c2 be2).state = (moderate st c1 be1).state ∧
    (moderate (moderate st c1 be1).state c2 be2).inv = ⟨false, false⟩ ∧
    (moderate st3 c3 be3).inv.aiInvoked = false := by
  have hkey : cacheKey c2 = cacheKey c1 := by simp [cacheKey, hA, hM]
  have h2 : cacheGet (moderate st c1 be1).state.cache (cacheKey c2) =
      some (moderate st c1 be1).result := by
    rw [hkey]
    exact moderate_caches st c1 be1
  have hhit := moderate_hit (moderate st c1 be1).state c2 be2 _ h2
  refine ⟨by rw [hhit], by rw [hhit], by rw [hhit], ?_⟩
  unfold moderate
  cases h3 : cacheGet st3.cache (cacheKey c3) with
  | some r => simp [h3]
  | none => simp [h3, hblk]

theorem moderate_cache_and_block_no_reinvoke_witness :
    (c5Comment.author = c5Comment.author ∧ c5Comment.message = c5Comment.message ∧
      (ruleCheck c5Blocked).allow = false) ∧
    ((moderate (moderate aiOnMod c5Comment .returnsUnparsable).state c5Comment .throws).result =
        (moderate aiOnMod c5Comment .returnsUnparsable).result ∧
      (moderate (moderate aiOnMod c5Comment .returnsUnparsable).state c5Comment .throws).state =
        (moderate aiOnMod c5Comment .returnsUnparsable).state ∧
      (moderate (moderate aiOnMod c5Comment .returnsUnparsable).state c5Comment .throws).inv =
        ⟨false, false⟩ ∧
      (moderate modOff c5Blocked .throws).inv.aiInvoked = false) :=
  ⟨⟨rfl, rfl, by decide⟩,
    moderate_cache_and_block_no_reinvoke aiOnMod modOff c5Comment c5Comment c5Blocked
      .returnsUnparsable .throws .throws rfl rfl (by decide)⟩

/-! ### C6: Scenario E — pin, then addComment at capacity -/

def c6c1 : Comment := ⟨"c1", "twitch", "UserOne", "hello stream one"⟩

def c6c2 : Comment := ⟨"c2", "twitch", "UserTwo", "hello stream two"⟩

def c6c3 : Comment := ⟨"c3", "twitch", "UserThree", "hello stream three"⟩

def c6c4 : Comment := ⟨"c4", "twitch", "UserFour", "hello stream four"⟩

/-- Scenario D: maxFeedSize = 2 and three allowed comments added in
order (classifier disabled, so every message passes by the rule
stage). -/
def c6AfterD : FeedState :=
  runFeed 2 (initFeed modOff) [(c6c1, .throws), (c6c2, .throws), (c6c3, .throws)]

/-- Scenario E: after Scenario D, pin(c2.id) then addComment(c4). -/
def c6AfterE : FeedState := addComment 2 (pin c6AfterD "c2") c6c4 .throws

/-- C6 counterexample: after Scenario D the feed is [c3, c2]; pinning c2
and then adding the allowed c4 makes getFeed(10) return [c4, c2] — which
is neither of the two outcomes the claim permits ([c2, c4] or
[c4, c3]). -/
theorem pin_then_add_neither_listed_outcome :
    (getFeed c6AfterD 10).map (fun e => e.comment.id) = ["c3", "c2"] ∧
    (getFeed c6AfterE 10).map (fun e => e.comment.id) = ["c4", "c2"] ∧
    ¬ ((getFeed c6AfterE 10).map (fun e => e.comment.id) = ["c2", "c4"] ∨
        (getFeed c6AfterE 10).map (fun e => e.comment.id) = ["c4", "c3"]) := by decide

/-- C6 amended: the run returns [c4, c2].  Pin moves c2 to the head at
pin time and marks it pinned; the next addComment inserts c4 above it
and the capacity trim evicts the tail entry c3.  The pinned comment thus
survives this call — in second position — but gains neither persistent
head position nor any trim immunity. -/
theorem pin_then_add_feed :
    getFeed c6AfterE 10 = [⟨c6c4, false, false⟩, ⟨c6c2, false, true⟩] := by decide

/-! ### C7: startAll isolates a single adapter failure -/

/-- A registry of three adapters, none yet started (stop behaviour is
irrelevant to startAll). -/
def threeReg (n1 n2 n3 : String) (s1 s2 s3 : StartBehavior) : PMState :=
  ⟨[(n1, ⟨s1, .ok, false⟩), (n2, ⟨s2, .ok, false⟩), (n3, ⟨s3, .ok, false⟩)]⟩

/-- C7: with three registered adapters of which exactly one throws in
start(), startAll completes (it is a total function) and returns the
state in which precisely the non-throwing adapters are started, with
exactly one platformError event — the tag of the throwing adapter — and
not zero or two. -/
theorem startAll_isolates_one_failure (n1 n2 n3 : String) (s1 s2 s3 : StartBehavior)
    (h12 : n1 ≠ n2) (h13 : n1 ≠ n3) (h23 : n2 ≠ n3)
    (hone : ([s1, s2, s3].countP (fun s => !s.isOk)) = 1) :
    startAll (threeReg n1 n2 n3 s1 s2 s3) =
      (⟨[(n1, ⟨s1, .ok, s1.isOk⟩), (n2, ⟨s2, .ok, s2.isOk⟩),
          (n3, ⟨s3, .ok, s3.isOk⟩)]⟩,
        ([(n1, s1), (n2, s2), (n3, s3)].filter (fun p => !p.2.isOk)).map
          (fun p => PMEvent.platformError p.1)) ∧
    (startAll (threeReg n1 n2 n3 s1 s2 s3)).2.length = 1 ∧
    ((startAll (threeReg n1 n2 n3 s1 s2 s3)).1.platforms.countP
      (fun e => e.2.started)) = 2 := by
  cases s1 <;> cases s2 <;> cases s3 <;>
    first
      | exact absurd hone (by decide)
      | simp [startAll, threeReg, pmList, startPlatform, pmGet, pmSetStarted,
          StartBehavior.isOk, List.countP, List.countP.go,
          h12, h13, h23, Ne.symm h12, Ne.symm h13, Ne.symm h23]

theorem startAll_isolates_one_failure_witness :
    (("youtube" : String) ≠ "twitch" ∧ ("youtube" : String) ≠ "tiktok" ∧
      ("twitch" : String) ≠ "tiktok" ∧
      ([StartBehavior.throws, StartBehavior.ok, StartBehavior.ok].countP
        (fun s => !s.isOk)) = 1) ∧
    (startAll (threeReg "youtube" "twitch" "tiktok" .throws .ok .ok) =
      (⟨[("youtube", ⟨.throws, .ok, StartBehavior.throws.isOk⟩),
          ("twitch", ⟨.ok, .ok, StartBehavior.ok.isOk⟩),
          ("tiktok", ⟨.ok, .ok, StartBehavior.ok.isOk⟩)]⟩,
        ([("youtube", StartBehavior.throws), ("twitch", StartBehavior.ok),
            ("tiktok", StartBehavior.ok)].filter (fun p => !p.2.isOk)).map
          (fun p => PMEvent.platformError p.1)) ∧
    (startAll (threeReg "youtube" "twitch" "tiktok" .throws .ok .ok)).2.length = 1 ∧
    ((startAll (threeReg "youtube" "twitch" "tiktok" .throws .ok .ok)).1.platforms.countP
      (fun e => e.2.started)) = 2) :=
  ⟨⟨by decide, by decide, by decide, by decide⟩,
    startAll_isolates_one_failure "youtube" "twitch" "tiktok" .throws .ok .ok
      (by decide) (by decide) (by decide) (by decide)⟩

/-! ### C8: registering an unknown adapter variant -/

/-- C8 counterexample: "constructor" does not map to a known adapter
variant, yet register with it does not fail with the ConfigurationError:
`PLATFORMS["constructor"]` finds the inherited `Object` constructor, so
the unknown-platform throw is skipped.  With an emitter-like config (one
exposing `on`) the call even succeeds — no error, and the registry
(hence list()) is mutated; with a plain config it fails with a TypeError
instead of the ConfigurationError. -/
theorem addPlatform_inherited_name_bypasses_check :
    knownPlatforms.contains "constructor" = false ∧
    (addPlatform ⟨[]⟩ "constructor" ⟨true, .ok, .ok⟩ false).2.2 = none ∧
    pmList (addPlatform ⟨[]⟩ "constructor" ⟨true, .ok, .ok⟩ false).1 = ["constructor"] ∧
    (addPlatform ⟨[]⟩ "constructor" ⟨false, .ok, .ok⟩ false).2.2 = some .typeError := by
  decide

/-- C8 amended: for every name that is neither an own key of PLATFORMS
nor the name of a property inherited from Object.prototype — i.e. for
which the lookup `PLATFORMS[name]` is undefined — register throws the
unknown-platform ConfigurationError before any mutation: no event fires
and the registry, hence list(), is exactly as before the failed call.
Inherited-property names bypass that check and fail later with a
TypeError, or, for "constructor" with an emitter-like config, even
register successfully, as the counterexample shows. -/
theorem addPlatform_unknown_rejected (st : PMState) (name : String)
    (cfg : JsConfig) (autoStart : Bool)
    (h : platformsLookup name = .undefinedValue) :
    (addPlatform st name cfg autoStart).1 = st ∧
    (addPlatform st name cfg autoStart).2.1 = [] ∧
    (addPlatform st name cfg autoStart).2.2 = some (.configurationError name) ∧
    pmList (addPlatform st name cfg autoStart).1 = pmList st := by
  unfold addPlatform
  simp [h]

theorem addPlatform_unknown_rejected_witness :
    platformsLookup "instagram" = PlatformsLookup.undefinedValue ∧
    ((addPlatform ⟨[("twitch", ⟨.ok, .ok, false⟩)]⟩ "instagram" ⟨true, .ok, .ok⟩ true).1 =
        ⟨[("twitch", ⟨.ok, .ok, false⟩)]⟩ ∧
      (addPlatform ⟨[("twitch", ⟨.ok, .ok, false⟩)]⟩ "instagram" ⟨true, .ok, .ok⟩
          true).2.1 = [] ∧
      (addPlatform ⟨[("twitch", ⟨.ok, .ok, false⟩)]⟩ "instagram" ⟨true, .ok, .ok⟩
          true).2.2 = some (.configurationError "instagram") ∧
      pmList (addPlatform ⟨[("twitch", ⟨.ok, .ok, false⟩)]⟩ "instagram" ⟨true, .ok, .ok⟩
          true).1 = pmList ⟨[("twitch", ⟨.ok, .ok, false⟩)]⟩) :=
  ⟨by decide,
    addPlatform_unknown_rejected ⟨[("twitch", ⟨.ok, .ok, false⟩)]⟩ "instagram"
      ⟨true, .ok, .ok⟩ true (by decide)⟩

/-! ### C9: the cache key joins author and message with a colon -/

def c9A : Comment := ⟨"a1", "twitch", "a:b", "c"⟩

def c9B : Comment := ⟨"a2", "twitch", "a", "b:c"⟩

/-- C9 counterexample: the comments (author "a:b", message "c") and
(author "a", message "b:c") have different (author, message) pairs but
the same joined key "a:b:c".  Moderating the first caches its rule-stage
block ("c" is too short); moderating the second then returns that cached
result without running any stage (both instrumentation flags false),
although its own rule stage would allow it — one pair's call returns the
other pair's cached ModerationResult. -/
theorem moderate_cache_key_collision :
    (c9A.author, c9A.message) ≠ (c9B.author, c9B.message) ∧
    cacheKey c9A = cacheKey c9B ∧
    (moderate (moderate modOff c9A .throws).state c9B .throws).result =
      (moderate modOff c9A .throws).result ∧
    (moderate (moderate modOff c9A .throws).state c9B .throws).inv = ⟨false, false⟩ ∧
    (ruleCheck c9A).allow = false ∧ (ruleCheck c9B).allow = true := by decide

/-- C9 amended: the cache is keyed by the single string
author ++ ":" ++ message, not by the pair.  A moderate call reads only
its own key and writes only its own key — its result and instrumentation
depend only on that entry and the mode flags, and every other key's
entry is left unchanged — so comments whose joined keys differ never
return or overwrite each other's cached results; but the joining is not
injective, and distinct pairs with colliding keys (an author containing
a colon) do interfere, as the counterexample shows. -/
theorem moderate_cache_footprint (st st2 : ModState) (c : Comment)
    (be : ClassifierBehavior) (k : String) (hk : k ≠ cacheKey c)
    (hget : cacheGet st.cache (cacheKey c) = cacheGet st2.cache (cacheKey c))
    (hu : st.useAI = st2.useAI) (ha : st.aiAvailable = st2.aiAvailable) :
    cacheGet (moderate st c be).state.cache k = cacheGet st.cache k ∧
    (moderate st c be).result = (moderate st2 c be).result ∧
    (moderate st c be).inv = (moderate st2 c be).inv := by
  unfold moderate
  cases h : cacheGet st.cache (cacheKey c) with
  | some r =>
    have h2 : cacheGet st2.cache (cacheKey c) = some r := by rw [← hget]; exact h
    simp [h, h2]
  | none =>
    have h2 : cacheGet st2.cache (cacheKey c) = none := by rw [← hget]; exact h
    simp only [h, h2, ← hu, ← ha]
    split
    · simp [cacheGet_cacheSet_ne _ _ _ _ (Ne.symm hk)]
    · split
      · cases hb : aiCheck be <;>
          simp [hb, cacheGet_cacheSet_ne _ _ _ _ (Ne.symm hk)]
      · simp [cacheGet_cacheSet_ne _ _ _ _ (Ne.symm hk)]

theorem moderate_cache_footprint_witness :
    (("zzz" : String) ≠ cacheKey c5Comment ∧
      cacheGet aiOnMod.cache (cacheKey c5Comment) =
        cacheGet aiOnMod.cache (cacheKey c5Comment) ∧
      aiOnMod.useAI = aiOnMod.useAI ∧ aiOnMod.aiAvailable = aiOnMod.aiAvailable) ∧
    (cacheGet (moderate aiOnMod c5Comment .throws).state.cache "zzz" =
        cacheGet aiOnMod.cache "zzz" ∧
      (moderate aiOnMod c5Comment .throws).result =
        (moderate aiOnMod c5Comment .throws).result ∧
      (moderate aiOnMod c5Comment .throws).inv = (moderate aiOnMod c5Comment .throws).inv) :=
  ⟨⟨by decide, rfl, rfl, rfl⟩,
    moderate_cache_footprint aiOnMod aiOnMod c5Comment .throws "zzz" (by decide) rfl rfl rfl⟩

/-! ### C10: clear resets the feed and statistics, not the cache -/

/-- C10: clear() empties the buffer and zeroes the statistics but does
not touch the moderator, so a (author, message) pair cached before the
clear is still served from the cache afterwards: moderate returns the
previously cached value with neither the rule stage nor the external
classifier re-run. -/
theorem clear_preserves_moderation_cache (st : FeedState) (c : Comment)
    (be : ClassifierBehavior) (v : JsObj)
    (h : cacheGet st.mod.cache (cacheKey c) = some v) :
    (clear st).feed = [] ∧ (clear st).stats = ⟨0, 0, 0, []⟩ ∧ (clear st).mod = st.mod ∧
    moderate (clear st).mod c be = ⟨v, st.mod, ⟨false, false⟩⟩ :=
  ⟨rfl, rfl, rfl, moderate_hit st.mod c be v h⟩

/-- A feed state in which c5Comment was moderated (through addComment)
before the clear. -/
def c10Pre : FeedState := addComment 50 (initFeed modOff) c5Comment .throws

theorem clear_preserves_moderation_cache_witness :
    cacheGet c10Pre.mod.cache (cacheKey c5Comment) =
      some (ModerationResult.toJs ⟨true, false, "passed rules"⟩) ∧
    ((clear c10Pre).feed = [] ∧ (clear c10Pre).stats = ⟨0, 0, 0, []⟩ ∧
      (clear c10Pre).mod = c10Pre.mod ∧
      moderate (clear c10Pre).mod c5Comment .returnsUnparsable =
        ⟨ModerationResult.toJs ⟨true, false, "passed rules"⟩, c10Pre.mod, ⟨false, false⟩⟩) :=
  ⟨by decide,
    clear_preserves_moderation_cache c10Pre c5Comment .returnsUnparsable
      (ModerationResult.toJs ⟨true, false, "passed rules"⟩) (by decide)⟩

end StreamForge
